import Mathlib

/-!
Shallow embedding of the prompt-orchestration and structured-generation
layer of the CodePulse interview-coach application
(`src/services/geminiService.ts` plus the chat-transcript logic of the
Mock Interview / Doubt Buster components), together with theorems
settling the specification claims about it.
-/

namespace CodePulse

/-- Tests whether `pat` is a prefix of `hay` (on character lists). -/
def startsList : List Char → List Char → Bool
  | [], _ => true
  | _ :: _, [] => false
  | p :: ps, h :: hs => p == h && startsList ps hs

/-- Tests whether `pat` occurs as a contiguous sublist of `hay`. -/
def listContains (pat : List Char) : List Char → Bool
  | [] => pat.isEmpty
  | h :: hs => startsList pat (h :: hs) || listContains pat hs

/-- JS `String.prototype.includes`: `pat` occurs as a contiguous substring
of `s`. -/
def containsStr (s pat : String) : Bool := listContains pat.data s.data

/-- JS `String.prototype.toLowerCase` (over the ASCII range the service
messages and keywords use). -/
def toLowerStr (s : String) : String := ⟨s.data.map Char.toLower⟩

/-- JS `String.prototype.trim`: strip leading and trailing whitespace. -/
def trimStr (s : String) : String :=
  ⟨((s.data.dropWhile Char.isWhitespace).reverse.dropWhile
      Char.isWhitespace).reverse⟩

/-- JS `String.prototype.startsWith`. -/
def startsWithStr (s pat : String) : Bool := startsList pat.data s.data

/-- The role categories of `types.ts` (`'tech' | 'content'`). -/
inductive RoleCategory where
  | tech
  | content
deriving DecidableEq, Repr

/-- The content-domain keyword list of `getRoleCategory`
(`geminiService.ts` line 316). -/
def contentKeywords : List String :=
  ["writer", "content", "editor", "copywriter", "author", "writing",
   "marketing", "copywriting"]

/-- Embeds `getRoleCategory` (`geminiService.ts` lines 315-319): lowercase the
job role and return `content` when any keyword occurs as a substring,
`tech` otherwise. -/
def getRoleCategory (jobRole : String) : RoleCategory :=
  let lowerJobRole := toLowerStr jobRole
  if contentKeywords.any (fun kw => containsStr lowerJobRole kw) then .content
  else .tech

/-- Embeds `handleApiError` (`geminiService.ts` lines 43-66).  The input models
the caught value: `some m` for an `Error` whose `.message` is `m`
(`m = ""` being a falsy message), `none` for a value that is not an
`Error` at all.  First matching rule wins, matching on the lowercased
message. -/
def handleApiError (err : Option String) : String :=
  let fallback := "The AI is currently unavailable. Please try again in a moment."
  match err with
  | none => fallback
  | some m =>
    if m = "" then fallback
    else
      let msg := toLowerStr m
      if containsStr msg "api key not valid" then
        "Invalid API key. Please check your Google AI API key configuration."
      else if containsStr msg "quota" || containsStr msg "429" then
        "API quota exceeded. Please try again later or check your billing status."
      else if containsStr msg "400" then
        "Invalid request. Please check your input and try again."
      else if containsStr msg "500" || containsStr msg "503" then
        "AI service temporarily unavailable. Please try again later."
      else if containsStr msg "safety" then
        "Request blocked by safety filters. Please modify your input."
      else
        "Unexpected error: " ++ m

/-- A JSON value, as produced by `JSON.parse`. -/
inductive Json where
  | null
  | bool (b : Bool)
  | num (n : Int)
  | str (s : String)
  | arr (xs : List Json)
  | obj (kvs : List (String × Json))

/-- JS truthiness of a JSON value. -/
def jsTruthy : Json → Bool
  | .null => false
  | .bool b => b
  | .num n => n != 0
  | .str s => s != ""
  | .arr _ => true
  | .obj _ => true

/-- Property lookup `v.key` on a parsed JSON value: `some` for a present
key of an object, `none` (JS `undefined`) otherwise. -/
def jget (v : Json) (key : String) : Option Json :=
  match v with
  | .obj kvs =>
    match kvs.find? (fun kv => kv.1 == key) with
    | some kv => some kv.2
    | none => none
  | _ => none

/-- JS `x.key || d`: the looked-up value when present and truthy,
otherwise the default `d`. -/
def jsOrGet (v : Json) (key : String) (d : Json) : Json :=
  match jget v key with
  | some x => if jsTruthy x then x else d
  | none => d

/-- JS `x || d` on a whole value. -/
def jsOrV (x : Json) (d : Json) : Json :=
  if jsTruthy x then x else d

/-- The outcome classes of the response-parsing step of
`generateAndParse` (`geminiService.ts` lines 282-293). -/
inductive ParseError where
  | emptyResponse
  | malformedFormat
  | jsonSyntax
deriving DecidableEq, Repr

/-- The parse step of `generateAndParse` (`geminiService.ts` lines
282-293): reject a falsy (empty) `response.text`, trim, reject text not
starting with a brace or bracket, then run `JSON.parse` (abstracted as
the parameter `jsonParse`, `none` meaning a syntax error). -/
def parseStep (jsonParse : String → Option Json) (rawText : String) :
    Except ParseError Json :=
  if rawText = "" then .error .emptyResponse
  else
    let jsonText := trimStr rawText
    if !(startsWithStr jsonText "\x7b" || startsWithStr jsonText "[") then
      .error .malformedFormat
    else
      match jsonParse jsonText with
      | some v => .ok v
      | none => .error .jsonSyntax

/-- The message of the `Error` a parse-step failure throws
(`geminiService.ts` lines 283 and 290); a `JSON.parse` syntax error
carries an engine-specific message, abstracted as `syntaxMsg`. -/
def parseErrorMessage (syntaxMsg : String) : ParseError → String
  | .emptyResponse => "Empty response from AI service"
  | .malformedFormat => "Invalid JSON response format"
  | .jsonSyntax => syntaxMsg

/-- The message of the `Error` thrown by `getAiClient` when neither
`API_KEY` nor `GEMINI_API_KEY` is configured (`geminiService.ts`
line 29). -/
def apiKeyMissingMessage : String :=
  "API_KEY is not configured. Please ensure GEMINI_API_KEY is set in your .env file."

/-- Embeds `getAiClient` (`geminiService.ts` lines 20-34): with no credential
configured it throws; otherwise it yields the (memoized, stateless)
client handle. -/
def getAiClient (apiKey : Option String) : Except String Unit :=
  match apiKey with
  | none => .error apiKeyMissingMessage
  | some _ => .ok ()

/-- What one attempt of the `generateAndParse` loop body did: its
outcome, and whether it reached the network call
(`client.models.generateContent`). -/
structure AttemptTrace where
  result : Except String Json
  networkCalled : Bool

/-- One iteration of the `generateAndParse` `try` block
(`geminiService.ts` lines 264-294): obtain the client, perform the
network call (abstracted as `net`, indexed by the attempt number), then
run the parse step.  The client-construction failure happens before any
network activity. -/
def attemptOnce (apiKey : Option String) (net : Nat → Except String String)
    (jsonParse : String → Option Json) (syntaxMsg : String) (k : Nat) :
    AttemptTrace :=
  match getAiClient apiKey with
  | .error e => ⟨.error e, false⟩
  | .ok _ =>
    match net k with
    | .error e => ⟨.error e, true⟩
    | .ok rawText =>
      match parseStep jsonParse rawText with
      | .ok v => ⟨.ok v, true⟩
      | .error pe => ⟨.error (parseErrorMessage syntaxMsg pe), true⟩

/-- Observable trace of one `generateAndParse` run: the final outcome
(success value, or the classified error thrown after the loop), how many
times the attempt body ran, how many of those attempts reached the
network, and the backoff delays (in milliseconds) slept between
consecutive attempts. -/
structure RunTrace where
  result : Except String Json
  attemptCalls : Nat
  networkCalls : Nat
  delays : List ℚ

/-- The retry loop of `generateAndParse` (`geminiService.ts` lines
263-307), unrolled from attempt number `k` with `fuel` attempts left:
a successful attempt returns at once; a failed attempt that is not the
last sleeps `1000 * k + jitter k` milliseconds (`jitter k` modelling the
`Math.random() * 1000` drawn before attempt `k+1`) and recurses; the
last failure is kept as `lastError`.  `Except (Option String)` carries
`lastError` (`none` when the loop body never ran). -/
def retryAux (out : Nat → AttemptTrace) (jitter : Nat → ℚ) :
    Nat → Nat → Except (Option String) Json × Nat × Nat × List ℚ
  | 0, _ => (.error none, 0, 0, [])
  | fuel + 1, k =>
    let a := out k
    let netHere : Nat := if a.networkCalled then 1 else 0
    match a.result with
    | .ok v => (.ok v, 1, netHere, [])
    | .error e =>
      if fuel = 0 then (.error (some e), 1, netHere, [])
      else
        let rest := retryAux out jitter fuel (k + 1)
        (rest.1, rest.2.1 + 1, rest.2.2.1 + netHere,
         (1000 * (k : ℚ) + jitter k) :: rest.2.2.2)

/-- Embeds `generateAndParse` (`geminiService.ts` lines 260-310) over an
abstract attempt body `out`: run the retry loop for `maxRetries`
attempts starting at attempt 1; if it never succeeds, throw
`handleApiError lastError`. -/
def generateAndParseModel (out : Nat → AttemptTrace) (jitter : Nat → ℚ)
    (maxRetries : Nat) : RunTrace :=
  let r := retryAux out jitter maxRetries 1
  ⟨match r.1 with
   | .ok v => .ok v
   | .error e => .error (handleApiError e),
   r.2.1, r.2.2.1, r.2.2.2⟩

/-- Embeds `generateAndParse` with the concrete attempt body: client
construction, network call, parse step. -/
def generateAndParseRun (apiKey : Option String)
    (net : Nat → Except String String) (jsonParse : String → Option Json)
    (syntaxMsg : String) (jitter : Nat → ℚ) (maxRetries : Nat) : RunTrace :=
  generateAndParseModel (attemptOnce apiKey net jsonParse syntaxMsg) jitter maxRetries

/-- The aggregate returned by `generateFullInterviewPrep`
(`geminiService.ts` lines 416-422). -/
structure FullInterviewPrep where
  roleCategory : RoleCategory
  generalQuestions : Json
  technicalQuestions : Json
  codingChallenges : Json
  machineCoding : Json

/-- The aggregate returned by `generateRandomizedPrepSet`
(`geminiService.ts` lines 511-518). -/
structure RandomizedPrepSet where
  roleCategory : RoleCategory
  generalQuestions : Json
  technicalQuestions : Json
  systemDesignQuestions : Json
  codingChallenges : Json
  machineCoding : Json

/-- Embeds `generateFullInterviewPrep` (`geminiService.ts` lines 324-427) as a
function of the outcomes of its three sequential `generateAndParse`
sub-calls (each outcome already the classified error that sub-call
throws, or the parsed value it returns).  A blank job role throws
"Job role is required" before the `try` block; inside, the first failed
sub-call short-circuits into the `catch`, which rethrows
`handleApiError` of it, and only when all three succeed is the aggregate
built, each field defaulted with `||` when falsy or missing. -/
def generateFullInterviewPrep (jobRole : String)
    (qRes cRes mRes : Except String Json) :
    Except String FullInterviewPrep :=
  if trimStr jobRole = "" then .error "Job role is required"
  else
    match qRes with
    | .error e => .error (handleApiError (some e))
    | .ok questionsResult =>
      match cRes with
      | .error e => .error (handleApiError (some e))
      | .ok codingChallengesResult =>
        match mRes with
        | .error e => .error (handleApiError (some e))
        | .ok machineCodingResult =>
          .ok ⟨getRoleCategory jobRole,
               jsOrGet questionsResult "generalQuestions" (.arr []),
               jsOrGet questionsResult "technicalQuestions" (.arr []),
               jsOrV codingChallengesResult (.arr []),
               jsOrV machineCodingResult (.obj [])⟩

/-- Embeds `generateRandomizedPrepSet` (`geminiService.ts` lines 432-523) as a
function of the outcomes of its four sequential `generateAndParse`
sub-calls, in call order: questions, system design, coding challenges,
machine coding.  Same atomic failure structure as
`generateFullInterviewPrep`. -/
def generateRandomizedPrepSet (jobRole : String)
    (qRes sRes cRes mRes : Except String Json) :
    Except String RandomizedPrepSet :=
  if trimStr jobRole = "" then .error "Job role is required"
  else
    match qRes with
    | .error e => .error (handleApiError (some e))
    | .ok questionsResult =>
      match sRes with
      | .error e => .error (handleApiError (some e))
      | .ok systemDesignResult =>
        match cRes with
        | .error e => .error (handleApiError (some e))
        | .ok codingChallengesResult =>
          match mRes with
          | .error e => .error (handleApiError (some e))
          | .ok machineCodingResult =>
            .ok ⟨getRoleCategory jobRole,
                 jsOrGet questionsResult "generalQuestions" (.arr []),
                 jsOrGet questionsResult "technicalQuestions" (.arr []),
                 jsOrV systemDesignResult (.arr []),
                 jsOrV codingChallengesResult (.arr []),
                 jsOrV machineCodingResult (.obj [])⟩

/-- The chat roles of `types.ts` (`'user' | 'model'`). -/
inductive Role where
  | user
  | model
deriving DecidableEq, Repr

/-- Embeds `ChatMessage` of `types.ts`: role, text, optional error flag, and the
`onRetry` closure modelled by the originating user message it would
resend (`none` when no retry action is bound). -/
structure ChatMessage where
  role : Role
  text : String
  isError : Bool
  retryOf : Option String
deriving DecidableEq, Repr

/-- The `setMessages` updater run for one streamed chunk
(`part_006` lines 131-144, `JobInputForm.tsx` lines 284-293): copy the
transcript and, only when its final message has role `model` with the
error flag unset, replace that final message by one whose text is the
old text with the chunk appended. -/
def chunkAppend (ms : List ChatMessage) (chunk : String) : List ChatMessage :=
  match ms.getLast? with
  | none => ms
  | some lastMessage =>
    if lastMessage.role = .model ∧ lastMessage.isError = false then
      ms.dropLast ++ [{ lastMessage with text := lastMessage.text ++ chunk }]
    else ms

/-- Outcome of one `chat.sendMessageStream` exchange: the call itself
may throw before yielding anything, or it yields a list of text chunks
followed by either normal completion or a mid-stream failure (the
thrown value modelled as for `handleApiError`). -/
inductive StreamResult where
  | failedToStart (err : Option String)
  | streamed (chunks : List String) (failure : Option (Option String))

/-- The error chat message built in the `catch` of `processAIResponse`:
classified text plus the component's retry-question suffix, flagged as
an error, with the retry action bound to the originating message. -/
def mkErrorMessage (err : Option String) (suffix message : String) :
    ChatMessage :=
  ⟨.model, handleApiError err ++ suffix, true, some message⟩

/-- Embeds `processAIResponse` of the Doubt Buster (`JobInputForm.tsx` lines
274-305) and of the Mock Interview (`part_006` lines 102-160), acting on
the transcript and the `lastProcessedMessage` ref; the two components
differ only in the `suffix` of the error text.  A non-retry resend of
the last processed message is suppressed; a retry first drops the last
transcript message; then an empty model message is appended, each chunk
folded in by `chunkAppend`, and a mid-stream failure appends the error
message built by `mkErrorMessage`. -/
def processAIResponse (suffix : String) (lastProcessed : String)
    (ms : List ChatMessage) (message : String) (isRetry : Bool)
    (sr : StreamResult) : List ChatMessage × String :=
  if !isRetry ∧ message = lastProcessed then (ms, lastProcessed)
  else
    let lp := if !isRetry then message else lastProcessed
    let ms1 := if isRetry then ms.dropLast else ms
    match sr with
    | .failedToStart e => (ms1 ++ [mkErrorMessage e suffix message], lp)
    | .streamed chunks failure =>
      let ms2 := chunks.foldl chunkAppend (ms1 ++ [⟨.model, "", false, none⟩])
      match failure with
      | none => (ms2, lp)
      | some e => (ms2 ++ [mkErrorMessage e suffix message], lp)

/-- The Doubt Buster error-message suffix (`JobInputForm.tsx` line
298). -/
def doubtBusterSuffix : String := " Would you like to try that again?"

/-- The Mock Interview error-message suffix (`part_006` line 150). -/
def mockInterviewSuffix : String :=
  " Would you like to retry sending your last message?"

/-- The six fixed user-facing sentences of the error classifier. -/
def classifierFixedMessages : List String :=
  ["The AI is currently unavailable. Please try again in a moment.",
   "Invalid API key. Please check your Google AI API key configuration.",
   "API quota exceeded. Please try again later or check your billing status.",
   "Invalid request. Please check your input and try again.",
   "AI service temporarily unavailable. Please try again later.",
   "Request blocked by safety filters. Please modify your input."]

/- ### Helper lemmas -/

theorem startsList_iff (p h : List Char) : startsList p h = true ↔ p <+: h := by
  induction p generalizing h with
  | nil => simp [startsList]
  | cons a ps ih =>
    cases h with
    | nil => simp [startsList]
    | cons b hs =>
      rw [startsList, Bool.and_eq_true, beq_iff_eq, ih,
        List.cons_prefix_cons]

theorem listContains_correct (p h : List Char) :
    listContains p h = true ↔ p <:+: h := by
  induction h with
  | nil =>
    rw [listContains, List.isEmpty_iff]
    constructor
    · rintro rfl; exact List.infix_rfl
    · intro hx; exact List.eq_nil_of_infix_nil hx
  | cons b hs ih =>
    rw [listContains, Bool.or_eq_true, startsList_iff, ih, List.infix_cons_iff]

theorem containsStr_iff (s pat : String) :
    containsStr s pat = true ↔ pat.data <:+: s.data :=
  listContains_correct pat.data s.data

/- ### Claim theorems -/

/-- C2: `getRoleCategory` is a pure function of the job-role string that
returns `content` exactly when the lowercased role contains one of the
recognized content-domain keywords as a substring (case-insensitive
matching), and `tech` for every other string. -/
theorem getRoleCategory_keyword_spec (jobRole : String) :
    (getRoleCategory jobRole = .content ↔
      ∃ kw ∈ contentKeywords, kw.data <:+: (toLowerStr jobRole).data) ∧
    ((¬ ∃ kw ∈ contentKeywords, kw.data <:+: (toLowerStr jobRole).data) →
      getRoleCategory jobRole = .tech) := by
  have hany :
      (contentKeywords.any fun kw => containsStr (toLowerStr jobRole) kw) = true ↔
        ∃ kw ∈ contentKeywords, kw.data <:+: (toLowerStr jobRole).data := by
    rw [List.any_eq_true]
    exact exists_congr fun kw =>
      and_congr_right fun _ => containsStr_iff (toLowerStr jobRole) kw
  constructor
  · rw [← hany]
    unfold getRoleCategory
    by_cases h : (contentKeywords.any fun kw =>
        containsStr (toLowerStr jobRole) kw) = true <;> simp [h]
  · rw [← hany]
    unfold getRoleCategory
    intro h
    simp only [Bool.not_eq_true] at h
    simp [h]

/-- C4: `handleApiError` is total and always returns a displayable
message: a message containing `429` or `quota` (case-insensitively),
when no higher-priority rule (`api key not valid`) matches, classifies
as the quota-exceeded sentence; a message containing `safety` in any
case, when no higher-priority rule matches, classifies as the
content-blocked sentence; an absent message classifies as the
generic-unavailable sentence; and every output is one of the six fixed
sentences or the unexpected-error echo of the original message. -/
theorem handleApiError_classifier_spec :
    (∀ m : String, m ≠ "" →
      containsStr (toLowerStr m) "api key not valid" = false →
      (containsStr (toLowerStr m) "429" = true ∨
        containsStr (toLowerStr m) "quota" = true) →
      handleApiError (some m) =
        "API quota exceeded. Please try again later or check your billing status.") ∧
    (∀ m : String, m ≠ "" →
      containsStr (toLowerStr m) "api key not valid" = false →
      containsStr (toLowerStr m) "quota" = false →
      containsStr (toLowerStr m) "429" = false →
      containsStr (toLowerStr m) "400" = false →
      containsStr (toLowerStr m) "500" = false →
      containsStr (toLowerStr m) "503" = false →
      containsStr (toLowerStr m) "safety" = true →
      handleApiError (some m) =
        "Request blocked by safety filters. Please modify your input.") ∧
    (handleApiError none =
      "The AI is currently unavailable. Please try again in a moment.") ∧
    (∀ e : Option String,
      handleApiError e ∈ classifierFixedMessages ∨
      ∃ m : String, handleApiError e = "Unexpected error: " ++ m) := by
  refine ⟨?_, ?_, rfl, ?_⟩
  · intro m hm hkey hq
    rcases hq with hq | hq <;> simp [handleApiError, hm, hkey, hq]
  · intro m hm hkey hq h429 h400 h500 h503 hs
    simp [handleApiError, hm, hkey, hq, h429, h400, h500, h503, hs]
  · intro e
    rcases e with _ | m
    · left; simp [handleApiError, classifierFixedMessages]
    · by_cases hm : m = ""
      · left; simp [handleApiError, hm, classifierFixedMessages]
      · simp only [handleApiError, hm, if_false]
        split_ifs <;>
          first
            | (right; exact ⟨m, rfl⟩)
            | (left; simp [classifierFixedMessages])

/-- Witness for C2's theorem at concrete inputs. -/
theorem getRoleCategory_keyword_spec_witness :
    getRoleCategory "Content Writer" = .content ∧
    getRoleCategory "Backend Engineer" = .tech := by
  constructor
  · exact (getRoleCategory_keyword_spec "Content Writer").1.2
      ⟨"writer", by decide, by
        have := (containsStr_iff (toLowerStr "Content Writer") "writer").1 (by decide)
        exact this⟩
  · refine (getRoleCategory_keyword_spec "Backend Engineer").2 ?_
    rintro ⟨kw, hkw, hinf⟩
    have hc : containsStr (toLowerStr "Backend Engineer") kw = true :=
      (containsStr_iff _ _).2 hinf
    fin_cases hkw <;> exact absurd hc (by decide)

/-- Witness for C4's theorem at concrete inputs. -/
theorem handleApiError_classifier_spec_witness :
    handleApiError (some "got HTTP 429 back") =
      "API quota exceeded. Please try again later or check your billing status." ∧
    handleApiError (some "Safety block") =
      "Request blocked by safety filters. Please modify your input." :=
  ⟨handleApiError_classifier_spec.1 "got HTTP 429 back" (by decide) (by decide)
      (Or.inl (by decide)),
   handleApiError_classifier_spec.2.1 "Safety block" (by decide) (by decide)
      (by decide) (by decide) (by decide) (by decide) (by decide) (by decide)⟩

/-- C5 counterexample: the empty raw string trims to text that does not
begin with a brace or bracket, yet the parse step fails with the
empty-response error, not the malformed-format error. -/
theorem parse_malformed_empty_cex :
    (startsWithStr (trimStr "") "\x7b" = false ∧
      startsWithStr (trimStr "") "[" = false) ∧
    parseStep (fun _ => none) "" = .error .emptyResponse ∧
    parseStep (fun _ => none) "" ≠ .error .malformedFormat := by
  refine ⟨⟨rfl, rfl⟩, rfl, ?_⟩
  intro h
  have h2 : ParseError.emptyResponse = ParseError.malformedFormat :=
    Except.error.inj h
  exact ParseError.noConfusion h2

/-- C5 (amended): for every non-empty raw response string whose trimmed
text does not begin with a brace or bracket, the parse step fails with
the malformed-format error, and the outcome is independent of the JSON
parser (full JSON parsing is never attempted). -/
theorem parse_malformed_precheck (jsonParse : String → Option Json)
    (rawText : String) (hne : rawText ≠ "")
    (hbrace : startsWithStr (trimStr rawText) "\x7b" = false)
    (hbracket : startsWithStr (trimStr rawText) "[" = false) :
    parseStep jsonParse rawText = .error .malformedFormat ∧
    ∀ jsonParse2, parseStep jsonParse rawText = parseStep jsonParse2 rawText := by
  constructor
  · simp [parseStep, hne, hbrace, hbracket]
  · intro jsonParse2
    simp [parseStep, hne, hbrace, hbracket]

/-- Witness for C5's amended theorem at a concrete input. -/
theorem parse_malformed_precheck_witness :
    parseStep (fun _ => none) "hello" = .error .malformedFormat :=
  (parse_malformed_precheck (fun _ => none) "hello" (by decide) rfl rfl).1

/-- C6 counterexample: a whitespace-only (but non-empty) raw response
string fails with the malformed-format error, not the empty-response
error. -/
theorem parse_empty_whitespace_cex :
    parseStep (fun _ => none) " " = .error .malformedFormat ∧
    parseStep (fun _ => none) " " ≠ .error .emptyResponse := by
  refine ⟨rfl, ?_⟩
  intro h
  have h2 : ParseError.malformedFormat = ParseError.emptyResponse :=
    Except.error.inj h
  exact ParseError.noConfusion h2

/-- C6 (amended): the parse step fails with the empty-response error
exactly when the raw response string is the empty string; whitespace-only
non-empty strings fall through to the structural pre-check instead. -/
theorem parse_empty_iff (jsonParse : String → Option Json)
    (rawText : String) :
    parseStep jsonParse rawText = .error .emptyResponse ↔ rawText = "" := by
  constructor
  · intro h
    by_contra hne
    rw [parseStep, if_neg hne] at h
    by_cases hpre : (!(startsWithStr (trimStr rawText) "\x7b" ||
        startsWithStr (trimStr rawText) "[")) = true
    · rw [if_pos hpre] at h
      exact ParseError.noConfusion (Except.error.inj h)
    · rw [if_neg hpre] at h
      rcases hjp : jsonParse (trimStr rawText) with _ | v <;> rw [hjp] at h
      · exact ParseError.noConfusion (Except.error.inj h)
      · exact Except.noConfusion h
  · intro h
    rw [h]
    rfl

/-- Witness for C6's amended theorem at the concrete empty input. -/
theorem parse_empty_iff_witness :
    parseStep (fun _ => none) "" = .error .emptyResponse :=
  (parse_empty_iff (fun _ => none) "").mpr rfl

/-- C3: with `maxAttempts = 2` and an attempt body that always fails,
the retry controller invokes the attempt body exactly twice, propagates
the classifier's output applied to the last failure (never the raw
error), sleeps exactly one backoff delay of `1000 * 1 + jitter 1`
milliseconds between the two attempts, and — for any jitter drawn from
`[0, 1000)` — the delay formula `1000 * k + jitter k` is non-decreasing
in the attempt number. -/
theorem retry_exhaustion_spec (out : Nat → AttemptTrace)
    (f : Nat → String) (jitter : Nat → ℚ)
    (hfail : ∀ k, (out k).result = .error (f k))
    (hjit : ∀ k, 0 ≤ jitter k ∧ jitter k < 1000) :
    (generateAndParseModel out jitter 2).attemptCalls = 2 ∧
    (generateAndParseModel out jitter 2).result =
      .error (handleApiError (some (f 2))) ∧
    (generateAndParseModel out jitter 2).delays =
      [1000 * (1 : ℚ) + jitter 1] ∧
    (∀ k : Nat,
      1000 * (k : ℚ) + jitter k ≤ 1000 * ((k : ℚ) + 1) + jitter (k + 1)) := by
  have h1 := hfail 1
  have h2 := hfail 2
  refine ⟨?_, ?_, ?_, ?_⟩
  · simp [generateAndParseModel, retryAux, h1, h2]
  · simp [generateAndParseModel, retryAux, h1, h2]
  · simp [generateAndParseModel, retryAux, h1, h2]
  · intro k
    have hk := hjit k
    have hk1 := hjit (k + 1)
    linarith [hk.1, hk.2, hk1.1, hk1.2]

/-- Witness for C3's theorem at a concrete always-failing attempt
body. -/
theorem retry_exhaustion_spec_witness :
    (generateAndParseModel (fun _ => ⟨.error "boom", true⟩)
        (fun _ => 0) 2).attemptCalls = 2 ∧
    (generateAndParseModel (fun _ => ⟨.error "boom", true⟩)
        (fun _ => 0) 2).result = .error (handleApiError (some "boom")) := by
  have h := retry_exhaustion_spec (fun _ => ⟨.error "boom", true⟩)
    (fun _ => "boom") (fun _ => 0) (fun _ => rfl)
    (fun _ => ⟨le_refl 0, by norm_num⟩)
  exact ⟨h.1, h.2.1⟩

/-- With the credential absent, every attempt body fails at client
construction with the configuration message and performs no network
call; the retry loop therefore runs all its attempts, none of them
reaching the network, and keeps the configuration message as the last
error. -/
theorem retryAux_missing_key (net : Nat → Except String String)
    (jsonParse : String → Option Json) (syntaxMsg : String)
    (jitter : Nat → ℚ) :
    ∀ fuel k, 1 ≤ fuel →
      (retryAux (attemptOnce none net jsonParse syntaxMsg) jitter fuel k).1 =
        .error (some apiKeyMissingMessage) ∧
      (retryAux (attemptOnce none net jsonParse syntaxMsg) jitter fuel k).2.1 =
        fuel ∧
      (retryAux (attemptOnce none net jsonParse syntaxMsg) jitter
        fuel k).2.2.1 = 0 := by
  intro fuel
  induction fuel with
  | zero => intro k h; omega
  | succ n ih =>
    intro k _
    by_cases hn : n = 0
    · subst hn
      simp [retryAux, attemptOnce, getAiClient]
    · have hrest := ih (k + 1) (Nat.one_le_iff_ne_zero.mpr hn)
      simp [retryAux, attemptOnce, getAiClient, hn, hrest.1, hrest.2.1,
        hrest.2.2]

/-- C9 counterexample: with the API key absent and `maxAttempts = 2`,
the configuration failure is not raised immediately — the retry loop
runs both attempts and sleeps a backoff delay between them — and the
surfaced message is the catch-all unexpected-error echo of the
configuration message, not the classifier's invalid-credential
sentence.  No network attempt is ever made. -/
theorem missing_key_retry_cex :
    (generateAndParseRun none (fun _ => .error "net") (fun _ => none)
        "syntax" (fun _ => 0) 2).attemptCalls = 2 ∧
    (generateAndParseRun none (fun _ => .error "net") (fun _ => none)
        "syntax" (fun _ => 0) 2).delays = [1000] ∧
    (generateAndParseRun none (fun _ => .error "net") (fun _ => none)
        "syntax" (fun _ => 0) 2).networkCalls = 0 ∧
    (generateAndParseRun none (fun _ => .error "net") (fun _ => none)
        "syntax" (fun _ => 0) 2).result =
      .error ("Unexpected error: " ++ apiKeyMissingMessage) ∧
    (generateAndParseRun none (fun _ => .error "net") (fun _ => none)
        "syntax" (fun _ => 0) 2).result ≠
      .error "Invalid API key. Please check your Google AI API key configuration." := by
  refine ⟨rfl, ?_, rfl, rfl, ?_⟩
  · norm_num [generateAndParseRun, generateAndParseModel, retryAux,
      attemptOnce, getAiClient]
  · intro h
    have h2 : "Unexpected error: " ++ apiKeyMissingMessage =
        "Invalid API key. Please check your Google AI API key configuration." :=
      Except.error.inj h
    exact absurd h2 (by decide)

/-- C9 (amended): when the credential is absent from configuration, any
generation call through the retry helper fails before any network
attempt is made (zero network calls), but the configuration failure is
caught by the retry loop — the attempt body runs `maxAttempts` times —
and the operation surfaces the classified catch-all message echoing the
configuration error. -/
theorem missing_key_spec (net : Nat → Except String String)
    (jsonParse : String → Option Json) (syntaxMsg : String)
    (jitter : Nat → ℚ) (maxRetries : Nat) (hpos : 1 ≤ maxRetries) :
    (generateAndParseRun none net jsonParse syntaxMsg jitter
      maxRetries).networkCalls = 0 ∧
    (generateAndParseRun none net jsonParse syntaxMsg jitter
      maxRetries).attemptCalls = maxRetries ∧
    (generateAndParseRun none net jsonParse syntaxMsg jitter
      maxRetries).result =
      .error ("Unexpected error: " ++ apiKeyMissingMessage) := by
  have h := retryAux_missing_key net jsonParse syntaxMsg jitter maxRetries 1 hpos
  have hclass : handleApiError (some apiKeyMissingMessage) =
      "Unexpected error: " ++ apiKeyMissingMessage := by decide
  refine ⟨?_, ?_, ?_⟩
  · simp [generateAndParseRun, generateAndParseModel, h.2.2]
  · simp [generateAndParseRun, generateAndParseModel, h.2.1]
  · simp [generateAndParseRun, generateAndParseModel, h.1, hclass]

/-- Witness for C9's amended theorem at a concrete configuration. -/
theorem missing_key_spec_witness :
    (generateAndParseRun none (fun _ => .error "net") (fun _ => none)
      "syntax" (fun _ => 0) 2).networkCalls = 0 ∧
    (generateAndParseRun none (fun _ => .error "net") (fun _ => none)
      "syntax" (fun _ => 0) 2).attemptCalls = 2 := by
  have h := missing_key_spec (fun _ => .error "net") (fun _ => none)
    "syntax" (fun _ => 0) 2 (by norm_num)
  exact ⟨h.1, h.2.1⟩

/-- C1: both orchestrated prep-kit operations fail atomically.  When the
second sequential sub-call fails permanently (its retry helper threw the
classified error `e`), the whole operation returns the single classified
error and discards the first sub-call's successful result; and in
general an aggregate is returned only when every sub-call succeeded. -/
theorem orchestrator_atomic_failure :
    (∀ (jobRole : String) (q : Json) (e : String)
        (mRes : Except String Json), trimStr jobRole ≠ "" →
      generateFullInterviewPrep jobRole (.ok q) (.error e) mRes =
        .error (handleApiError (some e))) ∧
    (∀ (jobRole : String) (q : Json) (e : String)
        (cRes mRes : Except String Json), trimStr jobRole ≠ "" →
      generateRandomizedPrepSet jobRole (.ok q) (.error e) cRes mRes =
        .error (handleApiError (some e))) ∧
    (∀ (jobRole : String) (qRes cRes mRes : Except String Json)
        (p : FullInterviewPrep),
      generateFullInterviewPrep jobRole qRes cRes mRes = .ok p →
      (∃ q, qRes = .ok q) ∧ (∃ c, cRes = .ok c) ∧ (∃ m, mRes = .ok m)) ∧
    (∀ (jobRole : String) (qRes sRes cRes mRes : Except String Json)
        (p : RandomizedPrepSet),
      generateRandomizedPrepSet jobRole qRes sRes cRes mRes = .ok p →
      (∃ q, qRes = .ok q) ∧ (∃ s, sRes = .ok s) ∧
      (∃ c, cRes = .ok c) ∧ (∃ m, mRes = .ok m)) := by
  refine ⟨?_, ?_, ?_, ?_⟩
  · intro jobRole q e mRes htrim
    simp [generateFullInterviewPrep, htrim]
  · intro jobRole q e cRes mRes htrim
    simp [generateRandomizedPrepSet, htrim]
  · intro jobRole qRes cRes mRes p h
    by_cases htrim : trimStr jobRole = "" <;>
      rcases qRes with eq | q <;> rcases cRes with ec | c <;>
      rcases mRes with em | m <;>
      simp_all [generateFullInterviewPrep]
  · intro jobRole qRes sRes cRes mRes p h
    by_cases htrim : trimStr jobRole = "" <;>
      rcases qRes with eq | q <;> rcases sRes with es | s <;>
      rcases cRes with ec | c <;> rcases mRes with em | m <;>
      simp_all [generateRandomizedPrepSet]

/-- Witness for C1's theorem: a concrete full-prep run whose second
sub-call failed permanently yields only the classified error. -/
theorem orchestrator_atomic_failure_witness :
    generateFullInterviewPrep "Engineer" (.ok (.obj [])) (.error "boom")
      (.ok (.obj [])) = .error (handleApiError (some "boom")) :=
  orchestrator_atomic_failure.1 "Engineer" (.obj []) "boom"
    (.ok (.obj [])) (by decide)

/-- C7 counterexample: a parsed questions result missing the required
`generalQuestions` top-level key is not a hard failure — the aggregate
is returned with the missing field silently coerced to the empty-array
default. -/
theorem schema_default_cex :
    generateFullInterviewPrep "Engineer"
      (.ok (.obj [("technicalQuestions", .arr [.str "t"])]))
      (.ok (.arr [.str "c"])) (.ok (.obj [("title", .str "T")])) =
    .ok ⟨.tech, .arr [], .arr [.str "t"], .arr [.str "c"],
      .obj [("title", .str "T")]⟩ := rfl

/-- C7 (amended): when every sub-call succeeds, the orchestrated
operation always returns an aggregate, and a parsed questions result
missing the required `generalQuestions` top-level key is silently
replaced by the empty-array default in that aggregate rather than
failing the operation. -/
theorem schema_default_spec (jobRole : String) (q c m : Json)
    (htrim : trimStr jobRole ≠ "")
    (hq : jget q "generalQuestions" = none) :
    ∃ p : FullInterviewPrep,
      generateFullInterviewPrep jobRole (.ok q) (.ok c) (.ok m) = .ok p ∧
      p.generalQuestions = .arr [] := by
  refine ⟨⟨getRoleCategory jobRole,
    jsOrGet q "generalQuestions" (.arr []),
    jsOrGet q "technicalQuestions" (.arr []),
    jsOrV c (.arr []), jsOrV m (.obj [])⟩, ?_, ?_⟩
  · simp [generateFullInterviewPrep, htrim]
  · simp [jsOrGet, hq]

/-- Witness for C7's amended theorem at a concrete input. -/
theorem schema_default_spec_witness :
    ∃ p : FullInterviewPrep,
      generateFullInterviewPrep "Engineer"
        (.ok (.obj [("technicalQuestions", .arr [.str "t"])]))
        (.ok (.arr [.str "c"])) (.ok (.obj [("title", .str "T")])) =
        .ok p ∧ p.generalQuestions = .arr [] :=
  schema_default_spec "Engineer" (.obj [("technicalQuestions", .arr [.str "t"])])
    (.arr [.str "c"]) (.obj [("title", .str "T")]) (by decide) rfl

/-- C8 counterexample: a mid-stream failure does not discard the partial
model message — the transcript keeps the partial text and the classified
error message is appended after it, so the partial message is still a
member of the resulting transcript. -/
theorem stream_failure_cex :
    processAIResponse doubtBusterSuffix "" [⟨.user, "Q", false, none⟩]
        "Q" false (.streamed ["Hel"] (some (some "x"))) =
      ([⟨.user, "Q", false, none⟩, ⟨.model, "Hel", false, none⟩,
        ⟨.model, "Unexpected error: x Would you like to try that again?",
          true, some "Q"⟩], "Q") ∧
    (⟨.model, "Hel", false, none⟩ : ChatMessage) ∈
      (processAIResponse doubtBusterSuffix "" [⟨.user, "Q", false, none⟩]
        "Q" false (.streamed ["Hel"] (some (some "x")))).1 := by
  constructor
  · rfl
  · decide

/-- C8 (amended): on a mid-stream failure the partial model message is
retained in the transcript, and a single error message is appended after
it carrying the classified error text plus the component's suffix and a
retry action bound to the exact originating user message; a retry run
first removes the last transcript message (the error message) before
streaming anew. -/
theorem stream_failure_spec (suffix lastProcessed : String)
    (ms : List ChatMessage) (message : String) (chunks : List String)
    (e : Option String) (hne : message ≠ lastProcessed) :
    ((processAIResponse suffix lastProcessed ms message false
        (.streamed chunks (some e))).1 =
      chunks.foldl chunkAppend (ms ++ [⟨.model, "", false, none⟩]) ++
        [⟨.model, handleApiError e ++ suffix, true, some message⟩]) ∧
    (∀ (lp : String) (t : List ChatMessage) (err : ChatMessage)
        (chunks2 : List String),
      (processAIResponse suffix lp (t ++ [err]) message true
          (.streamed chunks2 none)).1 =
        chunks2.foldl chunkAppend (t ++ [⟨.model, "", false, none⟩])) := by
  constructor
  · simp [processAIResponse, hne, mkErrorMessage]
  · intro lp t err chunks2
    simp [processAIResponse]

/-- Witness for C8's amended theorem at a concrete transcript. -/
theorem stream_failure_spec_witness :
    (processAIResponse doubtBusterSuffix "" [⟨.user, "Q", false, none⟩]
        "Q" false (.streamed ["Hel"] (some (some "x")))).1 =
      (["Hel"] : List String).foldl chunkAppend
          ([⟨.user, "Q", false, none⟩] ++ [⟨.model, "", false, none⟩]) ++
        [⟨.model, handleApiError (some "x") ++ doubtBusterSuffix, true,
          some "Q"⟩] :=
  (stream_failure_spec doubtBusterSuffix "" [⟨.user, "Q", false, none⟩]
    "Q" ["Hel"] (some "x") (by decide)).1

/-- C10: one streamed chunk changes the transcript only at its final
message, and only when that final message has role `model` with the
error flag unset, in which case the chunk is appended to its text (the
old text remaining a prefix of the new one); every earlier message, and
a final message that is not an unflagged model message, is left
unchanged, and no message is added or removed. -/
theorem chunkAppend_frame (front : List ChatMessage) (last : ChatMessage)
    (chunk : String) :
    (last.role = .model → last.isError = false →
      chunkAppend (front ++ [last]) chunk =
        front ++ [⟨.model, last.text ++ chunk, false, last.retryOf⟩] ∧
      last.text.data <+: (last.text ++ chunk).data) ∧
    ((last.role = .user ∨ last.isError = true) →
      chunkAppend (front ++ [last]) chunk = front ++ [last]) ∧
    (List.take front.length (chunkAppend (front ++ [last]) chunk) = front) ∧
    ((chunkAppend (front ++ [last]) chunk).length = front.length + 1) := by
  have hgrow : last.text.data <+: (last.text ++ chunk).data := by
    rcases last.text with ⟨ts⟩
    rcases chunk with ⟨cs⟩
    exact ⟨cs, rfl⟩
  have hcases :
      chunkAppend (front ++ [last]) chunk =
        front ++ [if last.role = .model ∧ last.isError = false then
          ⟨.model, last.text ++ chunk, false, last.retryOf⟩ else last] := by
    simp only [chunkAppend, List.getLast?_concat, List.dropLast_concat]
    by_cases h : last.role = .model ∧ last.isError = false
    · rw [if_pos h, if_pos h]
      rcases last with ⟨r, t, ie, ro⟩
      obtain ⟨hr, hie⟩ := h
      simp_all
    · rw [if_neg h, if_neg h]
  refine ⟨?_, ?_, ?_, ?_⟩
  · intro hrole herr
    rw [hcases, if_pos ⟨hrole, herr⟩]
    exact ⟨rfl, hgrow⟩
  · intro h
    rw [hcases, if_neg ?_]
    rintro ⟨hm, hie⟩
    rcases h with h | h
    · rw [h] at hm; exact Role.noConfusion hm
    · rw [h] at hie; exact Bool.noConfusion hie
  · rw [hcases]; exact List.take_left front _
  · rw [hcases]; simp

/-- Witness for C10's theorem: a chunk appended to a transcript whose
final message is an unflagged model message grows only that message. -/
theorem chunkAppend_frame_witness :
    chunkAppend ([⟨.user, "q", false, none⟩] ++ [⟨.model, "a", false, none⟩])
        "b" =
      [⟨.user, "q", false, none⟩] ++ [⟨.model, "ab", false, none⟩] :=
  ((chunkAppend_frame [⟨.user, "q", false, none⟩] ⟨.model, "a", false, none⟩
    "b").1 rfl rfl).1

end CodePulse
